import Mathlib

/-!
Shallow embedding of the setup-task GitHub Action (TypeScript sources:
`src/constants.ts`, `src/utils.ts`, `src/cache.ts`, the installer module and
the action entry point).  External effects (file system, cache backend,
network, subprocess execution) are passed in explicitly as parameters whose
`Except` results model a resolved promise (`.ok`) or a thrown error
(`.error e`, carrying the JS error message).  Strings are Lean `String`s;
JS truthiness of a string is emptiness; `path.join` is modelled with a `/`
separator.
-/

/-- Model of JavaScript string truthiness: a string is truthy iff non-empty. -/
def jsTruthy (s : String) : Bool := s ≠ ""

/-- Model of `path.join` for two segments (posix-style separator). -/
def pathJoin (a b : String) : String := a ++ "/" ++ b

/-- Whitespace characters removed by `String.prototype.trim`. -/
def isJsWhitespace (c : Char) : Bool :=
  c == ' ' || c == '\t' || c == '\n' || c == '\r' || c == '\x0b' || c == '\x0c'

/-- Model of `String.prototype.trim`: strip whitespace from both ends. -/
def jsTrim (s : String) : String :=
  String.mk (((s.toList.dropWhile isJsWhitespace).reverse.dropWhile isJsWhitespace).reverse)

/-- `sub` occurs as a contiguous substring of `s`. -/
def containsSubstr (s sub : String) : Bool :=
  (List.range (s.toList.length + 1)).any (fun i => sub.toList.isPrefixOf (s.toList.drop i))

/- ------------------------------------------------------------------ -/
/- constants.ts                                                        -/
/- ------------------------------------------------------------------ -/

/-- `RELEASES_API_URL` from constants.ts. -/
def RELEASES_API_URL : String := "https://api.github.com/repos/go-task/task/releases"

/-- `OS_MAPPING` from constants.ts: record lookup returning `undefined` (`none`)
for keys not present. -/
def OS_MAPPING (platform : String) : Option String :=
  if platform = "win32" then some "windows"
  else if platform = "darwin" then some "darwin"
  else if platform = "linux" then some "linux"
  else none

/-- `ARCH_MAPPING` from constants.ts. -/
def ARCH_MAPPING (arch : String) : Option String :=
  if arch = "x64" then some "amd64"
  else if arch = "arm64" then some "arm64"
  else if arch = "arm" then some "arm"
  else none

/-- `EXE_EXTENSION` from constants.ts, parameterised by `process.platform`. -/
def EXE_EXTENSION (platform : String) : String :=
  if platform = "win32" then ".exe" else ""

/-- `CACHE_DIR` from constants.ts. -/
def CACHE_DIR : String := "task-runner"

/-- `RELEASES_URL` from constants.ts. -/
def RELEASES_URL : String := "https://github.com/go-task/task/releases/download"

/- ------------------------------------------------------------------ -/
/- utils.ts                                                            -/
/- ------------------------------------------------------------------ -/

/-- `getCacheDirectory` from utils.ts, parameterised by `os.tmpdir()`. -/
def getCacheDirectory (tmpdir : String) : String := pathJoin tmpdir CACHE_DIR

/-- `cleanVersionFromTag` from utils.ts: strip a single leading "v"
(`startsWith` + `substring(1)` expressed on the character list). -/
def cleanVersionFromTag (tagName : String) : String :=
  match tagName.toList with
  | 'v' :: rest => String.mk rest
  | _ => tagName

/-- `fetchLatestRelease` from utils.ts.  The HTTP exchange is modelled by
`response`: `.error e` is a transport failure or non-2xx status (the thrown
message), `.ok tag` a parsed JSON body whose optional `tag_name` field is
`tag` (`none` models an absent field, `some ""` an empty one; both are falsy
in JS).  Every throw inside the body is wrapped by the surrounding catch. -/
def fetchLatestRelease (response : Except String (Option String)) : Except String String :=
  match response with
  | Except.error e =>
      Except.error ("Failed to fetch release information from " ++ RELEASES_API_URL ++ ": " ++ e)
  | Except.ok tag =>
      match tag with
      | none =>
          Except.error ("Failed to fetch release information from " ++ RELEASES_API_URL ++
            ": Invalid response format or no releases found")
      | some t =>
          if t = "" then
            Except.error ("Failed to fetch release information from " ++ RELEASES_API_URL ++
              ": Invalid response format or no releases found")
          else
            Except.ok (cleanVersionFromTag t)

/- ------------------------------------------------------------------ -/
/- cache.ts                                                            -/
/- ------------------------------------------------------------------ -/

/-- `getCacheKey` from cache.ts.  Note: the source reads `process.platform`
and `process.arch` directly (the raw runtime identifiers), not the mapped
identifiers of `OS_MAPPING`/`ARCH_MAPPING`. -/
def getCacheKey (platform arch version : String) : String :=
  "task-runner-" ++ version ++ "-" ++ platform ++ "-" ++ arch

/-- `getTaskExecutableName` from cache.ts. -/
def getTaskExecutableName (platform : String) : String :=
  "task" ++ (if platform = "win32" then ".exe" else "")

/-- Result of `restoreCache`: the returned path (`""` on a miss) and the
warnings emitted. -/
structure RestoreOutcome where
  result : String
  warnings : List String
deriving Repr, DecidableEq

/-- The body of `restoreCache` (cache.ts) inside its `try`: `.error` models a
throw escaping to the catch.  `backendRestore` is `cache.restoreCache` keyed
by the cache key (`.ok none` = miss, i.e. `undefined` hit key); `fileExists`
is `fs.existsSync`; `chmod` is `fs.chmodSync` on the restored file. -/
def restoreCacheBody (platform arch tmpdir version : String)
    (backendRestore : String → Except String (Option String))
    (fileExists : String → Bool)
    (chmod : Except String Unit) : Except String RestoreOutcome :=
  let cacheDir := getCacheDirectory tmpdir
  let cacheKey := getCacheKey platform arch version
  match backendRestore cacheKey with
  | Except.error e => Except.error e
  | Except.ok hitKey =>
    match hitKey with
    | none => Except.ok ⟨"", []⟩
    | some k =>
      if k = "" then Except.ok ⟨"", []⟩
      else
        let taskPath := pathJoin cacheDir (getTaskExecutableName platform)
        if fileExists taskPath then
          if platform ≠ "win32" then
            match chmod with
            | Except.error e => Except.error e
            | Except.ok _ => Except.ok ⟨taskPath, []⟩
          else Except.ok ⟨taskPath, []⟩
        else
          Except.ok ⟨"", ["Cache was hit but Task was not found at " ++ taskPath]⟩

/-- `restoreCache` from cache.ts: the catch downgrades any thrown error to a
warning and returns `""` (a miss).  The function itself never rejects. -/
def restoreCache (platform arch tmpdir version : String)
    (backendRestore : String → Except String (Option String))
    (fileExists : String → Bool)
    (chmod : Except String Unit) : RestoreOutcome :=
  match restoreCacheBody platform arch tmpdir version backendRestore fileExists chmod with
  | Except.ok r => r
  | Except.error e => ⟨"", ["Failed to restore from cache: " ++ e]⟩

/-- The body of `saveCache` (cache.ts) inside its `try`.  `mkdir` models
`fs.mkdirSync`, `copyFile` models `fs.copyFileSync` of the executable to the
cache directory, `backendSave` is `cache.saveCache` keyed by the cache key. -/
def saveCacheBody (platform arch tmpdir taskPath version : String)
    (mkdir : Except String Unit)
    (copyFile : Except String Unit)
    (backendSave : String → Except String Unit) : Except String Unit :=
  let cacheDir := getCacheDirectory tmpdir
  let cacheKey := getCacheKey platform arch version
  match mkdir with
  | Except.error e => Except.error e
  | Except.ok _ =>
    let destPath := pathJoin cacheDir (getTaskExecutableName platform)
    match (if taskPath ≠ destPath then copyFile else Except.ok ()) with
    | Except.error e => Except.error e
    | Except.ok _ => backendSave cacheKey

/-- `saveCache` from cache.ts: the catch converts any thrown error into two
warnings and returns normally; the result is the list of warnings emitted. -/
def saveCache (platform arch tmpdir taskPath version : String)
    (mkdir : Except String Unit)
    (copyFile : Except String Unit)
    (backendSave : String → Except String Unit) : List String :=
  match saveCacheBody platform arch tmpdir taskPath version mkdir copyFile backendSave with
  | Except.ok _ => []
  | Except.error e =>
      ["Failed to save Task to cache: " ++ e, "Failed to save cache: " ++ e]

/- ------------------------------------------------------------------ -/
/- installer module (src/installer.ts)                                 -/
/- ------------------------------------------------------------------ -/

/-- `getPlatform` from the installer: map `process.platform` through
`OS_MAPPING`; an unmapped platform calls `logAndFail`, which throws with the
message it logged. -/
def getPlatform (platform : String) : Except String String :=
  match OS_MAPPING platform with
  | some mappedPlatform => Except.ok mappedPlatform
  | none => Except.error ("Unsupported platform: " ++ platform)

/-- `getArchitecture` from the installer: map `process.arch` through
`ARCH_MAPPING`; an unmapped architecture calls `logAndFail`, which throws. -/
def getArchitecture (arch : String) : Except String String :=
  match ARCH_MAPPING arch with
  | some mappedArch => Except.ok mappedArch
  | none => Except.error ("Unsupported architecture: " ++ arch)

/-- `getDownloadUrl` from the installer: platform and architecture are mapped
first (either failure propagates), the archive extension is `zip` exactly on
`win32`, and the URL is assembled from `RELEASES_URL`, `v` + version and the
mapped identifiers. -/
def getDownloadUrl (platform arch version : String) : Except String String :=
  match getPlatform platform with
  | Except.error e => Except.error e
  | Except.ok mappedPlatform =>
    match getArchitecture arch with
    | Except.error e => Except.error e
    | Except.ok mappedArch =>
      let extension := if platform = "win32" then "zip" else "tar.gz"
      Except.ok (RELEASES_URL ++ "/v" ++ version ++ "/task_" ++ mappedPlatform ++ "_" ++
        mappedArch ++ "." ++ extension)

/-- File-system interface used by `findExecutable`: `existsSync` never throws
in the source (its result is a boolean), while `readdirSync` and `statSync`
may throw (`.error` carries the message). -/
structure FS where
  existsSync : String → Bool
  readdirSync : String → Except String (List String)
  statIsDirectory : String → Except String Bool

/-- The local `checkDirectory` closure of `findExecutable`: the candidate path
is `dirPath/executableName`; return it when it exists, else `null`. -/
def checkDirectory (fs : FS) (executableName dirPath : String) : Option String :=
  let execPath := pathJoin dirPath executableName
  if fs.existsSync execPath then some execPath else none

/-- The `for` loop of `findExecutable` over the entries of the extraction
root: stat each entry (a throw escapes the loop), descend into directories
only, return the first hit, `none` when the entries are exhausted. -/
def searchChildDirs (fs : FS) (executableName extractedPath : String) :
    List String → Except String (Option String)
  | [] => Except.ok none
  | entry :: rest =>
    let entryPath := pathJoin extractedPath entry
    match fs.statIsDirectory entryPath with
    | Except.error e => Except.error e
    | Except.ok isDir =>
      if isDir then
        match checkDirectory fs executableName entryPath with
        | some execPath => Except.ok (some execPath)
        | none => searchChildDirs fs executableName extractedPath rest
      else searchChildDirs fs executableName extractedPath rest

/-- `findExecutable` from the installer: check the extraction root directly,
then each immediate child directory; a throw from `readdirSync`/`statSync` is
caught and logged as a warning; on any non-hit the function warns and returns
`""`.  The result pairs the returned path with the warnings emitted. -/
def findExecutable (fs : FS) (platform extractedPath : String) : String × List String :=
  let executableName := "task" ++ EXE_EXTENSION platform
  match checkDirectory fs executableName extractedPath with
  | some directPath => (directPath, [])
  | none =>
    let searched : Except String (Option String) :=
      match fs.readdirSync extractedPath with
      | Except.error e => Except.error e
      | Except.ok entries => searchChildDirs fs executableName extractedPath entries
    match searched with
    | Except.ok (some execPath) => (execPath, [])
    | Except.ok none =>
        ("", ["Executable not found: " ++ executableName ++ " in directory: " ++ extractedPath])
    | Except.error e =>
        ("", ["Error encountered while searching for executable. Error: " ++ e,
              "Executable not found: " ++ executableName ++ " in directory: " ++ extractedPath])

/-- The locate step of `installTask`: call `findExecutable` and turn its
falsy `""` result into the fatal executable-not-found error naming the
extraction root. -/
def locateExecutable (fs : FS) (platform extractedPath : String) : Except String String :=
  let taskPath := (findExecutable fs platform extractedPath).1
  if taskPath = "" then
    Except.error ("Executable not found in extracted directory: " ++ extractedPath)
  else Except.ok taskPath

/-- The version-resolution expression at the top of `installTask`: the
`latest` sentinel triggers `fetchLatestRelease` (its failure is replaced by a
fixed message); any other requested version is used as-is. -/
def resolveVersion (requestedVersion : String) (fetchResult : Except String String) :
    Except String String :=
  if requestedVersion = "latest" then
    match fetchResult with
    | Except.ok latestVersion => Except.ok latestVersion
    | Except.error _ =>
        Except.error ("Unable to retrieve the latest version. Please specify a specific version instead of \x27latest\x27.")
  else Except.ok requestedVersion

/-- The body of `installTask` inside its `try`.  `fetchResult` is the outcome
of `fetchLatestRelease` (consulted only on the `latest` branch), `download`
models `toolCache.downloadTool` as a function of the URL, `extractZip` and
`extractTar` model the two extractors as functions of the downloaded path,
`chmod` models the `fs.chmodSync` on the located executable (non-Windows). -/
def installTaskBody (platform arch : String) (fs : FS) (requestedVersion : String)
    (fetchResult : Except String String)
    (download : String → Except String String)
    (extractZip : String → Except String String)
    (extractTar : String → Except String String)
    (chmod : Except String Unit) : Except String String :=
  match resolveVersion requestedVersion fetchResult with
  | Except.error e => Except.error e
  | Except.ok version =>
    match getDownloadUrl platform arch version with
    | Except.error e => Except.error e
    | Except.ok downloadUrl =>
      match download downloadUrl with
      | Except.error e => Except.error e
      | Except.ok downloadedPath =>
        let extracted : Except String String :=
          if downloadUrl.endsWith ".zip" then extractZip downloadedPath
          else if downloadUrl.endsWith ".tar.gz" then extractTar downloadedPath
          else Except.error ("Unsupported archive format encountered: " ++ downloadUrl)
        match extracted with
        | Except.error e => Except.error ("Extraction failed. Error: " ++ e)
        | Except.ok extractedPath =>
          match locateExecutable fs platform extractedPath with
          | Except.error e => Except.error e
          | Except.ok taskPath =>
            if platform ≠ "win32" then
              match chmod with
              | Except.error e => Except.error e
              | Except.ok _ => Except.ok taskPath
            else Except.ok taskPath

/-- `installTask` from the installer: the catch logs and then calls
`logAndFail` with a wrapping message, which itself throws — so the error that
escapes `installTask` is the wrapped one (the trailing `throw error` is
unreachable). -/
def installTask (platform arch : String) (fs : FS) (requestedVersion : String)
    (fetchResult : Except String String)
    (download : String → Except String String)
    (extractZip : String → Except String String)
    (extractTar : String → Except String String)
    (chmod : Except String Unit) : Except String String :=
  match installTaskBody platform arch fs requestedVersion fetchResult download
      extractZip extractTar chmod with
  | Except.ok taskPath => Except.ok taskPath
  | Except.error e => Except.error ("Installation process terminated. Error: " ++ e)

/- ------------------------------------------------------------------ -/
/- entry point (src/main.ts)                                          -/
/- ------------------------------------------------------------------ -/

/-- `TaskOptions` from src/types.ts (`githubToken` is defaulted to `""` at the
construction site, so it is modelled as a plain string). -/
structure TaskOptions where
  version : String
  skipCache : Bool
  githubToken : String
deriving Repr, DecidableEq

/-- `getTaskOptions` from main.ts.  The four inputs are the raw values of
`version-from-file`, `version`, `skip-cache` and `github-token`;
`readFileSync` models `fs.readFileSync(path, utf8)` (`.error` = throw).  The
conflict check fires when `version-from-file` and `version` are both truthy
and `version` is not the default sentinel; the file branch keeps the initial
`latest` when the raw content is falsy (empty before trimming) and otherwise
uses the trimmed content. -/
def getTaskOptions (versionFromFile versionInput skipCacheInput githubTokenInput : String)
    (readFileSync : String → Except String String) : Except String TaskOptions :=
  if versionFromFile ≠ "" ∧ versionInput ≠ "" ∧ versionInput ≠ "latest" then
    Except.error "Both version and version-from-file inputs cannot be used together. Please specify only one."
  else
    let resolved : Except String String :=
      if versionFromFile ≠ "" then
        match readFileSync versionFromFile with
        | Except.ok fileContent =>
            if fileContent ≠ "" then Except.ok (jsTrim fileContent) else Except.ok "latest"
        | Except.error e =>
            Except.error ("Failed to read version from file " ++ versionFromFile ++ ": " ++ e)
      else if versionInput ≠ "" then Except.ok versionInput
      else Except.ok "latest"
    match resolved with
    | Except.error e => Except.error e
    | Except.ok version =>
        Except.ok { version := version,
                    skipCache := skipCacheInput = "true",
                    githubToken := githubTokenInput }

/-- `verifyInstallation` from main.ts.  `whichResult` models
`exec.getExecOutput(which, [task])` (its stdout on success), `execResult`
models running the resolved executable with `--version` while capturing its
stdout.  Any throw inside the `try` is re-wrapped by the catch, so the inner
empty-output throw surfaces with a doubled prefix. -/
def verifyInstallation (whichResult : Except String String)
    (execResult : Except String String) : Except String Unit :=
  let body : Except String Unit :=
    match whichResult with
    | Except.error e => Except.error e
    | Except.ok _taskPath =>
      match execResult with
      | Except.error e => Except.error e
      | Except.ok output =>
        if (jsTrim output).length = 0 then
          Except.error "Task verification failed: No version returned from Task"
        else Except.ok ()
  match body with
  | Except.ok _ => Except.ok ()
  | Except.error e => Except.error ("Task verification failed: " ++ e)

/-- Observable stages of `run` in main.ts, in execution order. -/
inductive Step
  | getOptions
  | envVars
  | checkInstalled
  | cacheRestore
  | installer
  | cacheSave
  | addPath
  | setOutput
  | verify
deriving Repr, DecidableEq

/-- Ambient world of one `run` invocation: raw inputs plus the outcome of
every external effect the pipeline may perform. -/
structure RunEnv where
  versionFromFile : String
  versionInput : String
  skipCacheInput : String
  githubTokenInput : String
  varsInput : String
  readFileSync : String → Except String String
  platform : String
  arch : String
  tmpdir : String
  taskAlreadyInstalled : Bool
  whichOutput : String
  backendRestore : String → Except String (Option String)
  cacheFileExists : String → Bool
  restoreChmod : Except String Unit
  fetchResult : Except String String
  download : String → Except String String
  extractZip : String → Except String String
  extractTar : String → Except String String
  installChmod : Except String Unit
  mkdirResult : Except String Unit
  copyResult : Except String Unit
  backendSave : String → Except String Unit
  verifyWhich : Except String String
  verifyExec : Except String String
  extractionFS : FS

/-- The install closure inside `run` (restore from cache unless skipped, else
install, then save unless skipped), together with the steps it performs. -/
def installBlock (env : RunEnv) (options : TaskOptions) :
    Except String String × List Step :=
  let attemptInstall : Except String String :=
    installTask env.platform env.arch env.extractionFS
      options.version env.fetchResult env.download env.extractZip env.extractTar env.installChmod
  if !options.skipCache then
    let restored := restoreCache env.platform env.arch env.tmpdir options.version
      env.backendRestore env.cacheFileExists env.restoreChmod
    if restored.result ≠ "" then (Except.ok restored.result, [Step.cacheRestore])
    else
      match attemptInstall with
      | Except.error e => (Except.error e, [Step.cacheRestore, Step.installer])
      | Except.ok installedPath =>
          let _warnings := saveCache env.platform env.arch env.tmpdir installedPath
            options.version env.mkdirResult env.copyResult env.backendSave
          (Except.ok installedPath, [Step.cacheRestore, Step.installer, Step.cacheSave])
  else
    match attemptInstall with
    | Except.error e => (Except.error e, [Step.installer])
    | Except.ok installedPath => (Except.ok installedPath, [Step.installer])

/-- Result of one `run` invocation: the failure message handed to
`core.setFailed` (`none` on success) and the steps that were executed. -/
structure RunResult where
  failed : Option String
  steps : List Step
deriving Repr, DecidableEq

/-- The tail of `run` after a task path is available: add to PATH, set the
output, verify. -/
def afterInstall (env : RunEnv) (stepsSoFar : List Step) : RunResult :=
  let steps := stepsSoFar ++ [Step.addPath, Step.setOutput, Step.verify]
  match verifyInstallation env.verifyWhich env.verifyExec with
  | Except.error e => ⟨some ("Task setup failed: " ++ e), steps⟩
  | Except.ok _ => ⟨none, steps⟩

/-- `run` from main.ts: options, optional `vars` processing (`processEnvVars`
never throws), installed-check (`isTaskInstalled` never throws), the install
closure, PATH/output, verification; every throw reaches the single catch and
becomes one `setFailed` message. -/
def run (env : RunEnv) : RunResult :=
  match getTaskOptions env.versionFromFile env.versionInput env.skipCacheInput
      env.githubTokenInput env.readFileSync with
  | Except.error e => ⟨some ("Task setup failed: " ++ e), [Step.getOptions]⟩
  | Except.ok options =>
    let steps0 := [Step.getOptions] ++ (if env.varsInput ≠ "" then [Step.envVars] else [])
    let steps1 := steps0 ++ [Step.checkInstalled]
    if env.taskAlreadyInstalled then
      afterInstall env steps1
    else
      match installBlock env options with
      | (Except.error e, blockSteps) =>
          ⟨some ("Task setup failed: " ++ e), steps1 ++ blockSteps⟩
      | (Except.ok _taskPath, blockSteps) =>
          afterInstall env (steps1 ++ blockSteps)

/- ------------------------------------------------------------------ -/
/- Helper lemmas                                                       -/
/- ------------------------------------------------------------------ -/

theorem pathJoin_ne_empty (a b : String) : pathJoin a b ≠ "" := by
  intro h
  have hd := congrArg String.data h
  simp [pathJoin, String.data_append] at hd

theorem string_length_zero_iff (s : String) : s.length = 0 ↔ s = "" := by
  constructor
  · intro h
    cases s with
    | mk data =>
      cases data with
      | nil => rfl
      | cons c cs => simp [String.length] at h
  · intro h
    subst h
    rfl

theorem OS_MAPPING_windows_iff (platform p : String) (h : OS_MAPPING platform = some p) :
    platform = "win32" ↔ p = "windows" := by
  unfold OS_MAPPING at h
  split_ifs at h with h1 h2 h3
  · injection h with hv
    subst hv
    simp [h1]
  · injection h with hv
    subst hv
    constructor
    · intro hw
      exact absurd hw h1
    · intro hw
      exact absurd hw (by decide)
  · injection h with hv
    subst hv
    constructor
    · intro hw
      exact absurd hw h1
    · intro hw
      exact absurd hw (by decide)

/-- An entry of the extraction root that the depth-1 loop passes over without
returning: its stat succeeds and, when it is a directory, the executable is
not inside it. -/
def entryNoMatch (fs : FS) (executableName extractedPath entry : String) : Prop :=
  ∃ b, fs.statIsDirectory (pathJoin extractedPath entry) = Except.ok b ∧
    (b = true → fs.existsSync (pathJoin (pathJoin extractedPath entry) executableName) = false)

theorem searchChildDirs_append_skip (fs : FS) (executableName extractedPath : String)
    (pre rest : List String)
    (h : ∀ x ∈ pre, entryNoMatch fs executableName extractedPath x) :
    searchChildDirs fs executableName extractedPath (pre ++ rest) =
      searchChildDirs fs executableName extractedPath rest := by
  induction pre with
  | nil => rfl
  | cons a pre ih =>
    obtain ⟨b, hstat, himp⟩ := h a (by simp)
    have hrest : ∀ x ∈ pre, entryNoMatch fs executableName extractedPath x :=
      fun x hx => h x (by simp [hx])
    cases b with
    | false =>
      simp only [List.cons_append, searchChildDirs, hstat]
      simpa using ih hrest
    | true =>
      have hex := himp rfl
      simp only [List.cons_append, searchChildDirs, hstat, checkDirectory, hex]
      simpa using ih hrest

/- ------------------------------------------------------------------ -/
/- Claims                                                              -/
/- ------------------------------------------------------------------ -/

/-- C1: for every explicit version string (anything but the sentinel
"latest"), version resolution returns it unchanged whatever the remote fetch
would have produced — the latest branch is untaken and no leading "v" is
stripped — and the download URL embeds it verbatim after the fixed "/v"
segment (so a caller passing "v3.43.1" gets a "vv3.43.1" URL segment). -/
theorem C1_explicit_version_verbatim (v : String) (hv : v ≠ "latest")
    (fetchResult : Except String String) :
    resolveVersion v fetchResult = Except.ok v ∧
    getDownloadUrl "linux" "x64" v =
      Except.ok ("https://github.com/go-task/task/releases/download/v" ++ v ++
        "/task_linux_amd64.tar.gz") := by
  constructor
  · simp [resolveVersion, hv]
  · have h1 : getDownloadUrl "linux" "x64" v =
        Except.ok (RELEASES_URL ++ "/v" ++ v ++ "/task_" ++ "linux" ++ "_" ++ "amd64" ++
          "." ++ "tar.gz") := rfl
    rw [h1]
    simp only [RELEASES_URL, String.append_assoc]
    rfl

/-- Witness for C1 at the concrete input "v3.43.1": resolution keeps the
leading "v" and the URL segment is "vv3.43.1". -/
theorem C1_explicit_version_verbatim_witness :
    resolveVersion "v3.43.1" (Except.error "network down") = Except.ok "v3.43.1" ∧
    getDownloadUrl "linux" "x64" "v3.43.1" =
      Except.ok ("https://github.com/go-task/task/releases/download/v" ++ "v3.43.1" ++
        "/task_linux_amd64.tar.gz") :=
  C1_explicit_version_verbatim "v3.43.1" (by decide) (Except.error "network down")

/-- C2 counterexample: a version file whose content is the single newline
"\n" (whitespace only, hence empty after trimming) does not fall back to
"latest" — the trimmed empty string is accepted as the version. -/
theorem C2_counterexample :
    getTaskOptions ".task-version" "" "" "" (fun _ => Except.ok "\n") =
      Except.ok ⟨"", false, ""⟩ ∧ ("" : String) ≠ "latest" :=
  ⟨rfl, by decide⟩

/-- C2 (amended): with a version file configured, the fallback to "latest"
happens exactly when the raw file content is the empty string; any non-empty
content — including whitespace-only content — is trimmed and accepted as the
version, so whitespace-only content yields the empty version string. -/
theorem C2_empty_file_fallback (vff vIn skipC tok : String)
    (reader : String → Except String String)
    (hff : vff ≠ "") (hIn : vIn = "" ∨ vIn = "latest") :
    (reader vff = Except.ok "" →
      getTaskOptions vff vIn skipC tok reader =
        Except.ok ⟨"latest", decide (skipC = "true"), tok⟩) ∧
    (∀ c, reader vff = Except.ok c → c ≠ "" →
      getTaskOptions vff vIn skipC tok reader =
        Except.ok ⟨jsTrim c, decide (skipC = "true"), tok⟩) := by
  constructor
  · intro hread
    rcases hIn with h | h <;> subst h <;> simp [getTaskOptions, hff, hread]
  · intro c hread hc
    rcases hIn with h | h <;> subst h <;> simp [getTaskOptions, hff, hread, hc]

/-- Witness for C2's amended statement: an empty file falls back to "latest";
the whitespace-only content " " is accepted and trims to the empty version. -/
theorem C2_empty_file_fallback_witness :
    getTaskOptions ".task-version" "" "" "" (fun _ => Except.ok "") =
      Except.ok ⟨"latest", decide (("" : String) = "true"), ""⟩ ∧
    getTaskOptions ".task-version" "" "" "" (fun _ => Except.ok " ") =
      Except.ok ⟨jsTrim " ", decide (("" : String) = "true"), ""⟩ :=
  ⟨(C2_empty_file_fallback ".task-version" "" "" "" (fun _ => Except.ok "")
      (by decide) (Or.inl rfl)).1 rfl,
   (C2_empty_file_fallback ".task-version" "" "" "" (fun _ => Except.ok " ")
      (by decide) (Or.inl rfl)).2 " " rfl (by decide)⟩

/-- C3 counterexample: on the supported pair (win32, x64) the cache key is
"task-runner-1.0.0-win32-x64" — its architecture component is the raw
runtime identifier "x64", and the key does not end with any of the mapped
identifiers amd64/arm64/arm the claim requires. -/
theorem C3_counterexample :
    getCacheKey "win32" "x64" "1.0.0" = "task-runner-1.0.0-win32-x64" ∧
    List.isSuffixOf "amd64".toList "task-runner-1.0.0-win32-x64".toList = false ∧
    List.isSuffixOf "arm64".toList "task-runner-1.0.0-win32-x64".toList = false ∧
    List.isSuffixOf "arm".toList "task-runner-1.0.0-win32-x64".toList = false :=
  ⟨rfl, by decide, by decide, by decide⟩

/-- C3 (amended): the cache key is the deterministic composition of the fixed
namespace, the resolved version, and the raw runtime identifiers
`process.platform` and `process.arch` (not the mapped tool-naming
identifiers), and this key is the sole identity both cache operations present
to the backend: two backends that agree on this one key make `restoreCache`
and `saveCache` behave identically. -/
theorem C3_cache_key_raw_identifiers (platform arch version tmpdir taskPath : String)
    (fileExists : String → Bool) (chmod mkdir copyFile : Except String Unit)
    (f g : String → Except String (Option String))
    (sf sg : String → Except String Unit)
    (hfg : f (getCacheKey platform arch version) = g (getCacheKey platform arch version))
    (hsfg : sf (getCacheKey platform arch version) = sg (getCacheKey platform arch version)) :
    getCacheKey platform arch version =
      "task-runner-" ++ version ++ "-" ++ platform ++ "-" ++ arch ∧
    restoreCache platform arch tmpdir version f fileExists chmod =
      restoreCache platform arch tmpdir version g fileExists chmod ∧
    saveCache platform arch tmpdir taskPath version mkdir copyFile sf =
      saveCache platform arch tmpdir taskPath version mkdir copyFile sg := by
  refine ⟨rfl, ?_, ?_⟩
  · simp only [restoreCache, restoreCacheBody]
    rw [hfg]
  · simp only [saveCache, saveCacheBody]
    rw [hsfg]

/-- Witness for C3's amended statement at (linux, x64, 3.43.1). -/
theorem C3_cache_key_raw_identifiers_witness :
    getCacheKey "linux" "x64" "3.43.1" =
      "task-runner-" ++ "3.43.1" ++ "-" ++ "linux" ++ "-" ++ "x64" ∧
    restoreCache "linux" "x64" "/tmp" "3.43.1" (fun _ => Except.ok none)
        (fun _ => true) (Except.ok ()) =
      restoreCache "linux" "x64" "/tmp" "3.43.1" (fun _ => Except.ok none)
        (fun _ => true) (Except.ok ()) ∧
    saveCache "linux" "x64" "/tmp" "/inst/task" "3.43.1" (Except.ok ()) (Except.ok ())
        (fun _ => Except.ok ()) =
      saveCache "linux" "x64" "/tmp" "/inst/task" "3.43.1" (Except.ok ()) (Except.ok ())
        (fun _ => Except.ok ()) :=
  C3_cache_key_raw_identifiers "linux" "x64" "3.43.1" "/tmp" "/inst/task"
    (fun _ => true) (Except.ok ()) (Except.ok ()) (Except.ok ())
    (fun _ => Except.ok none) (fun _ => Except.ok none)
    (fun _ => Except.ok ()) (fun _ => Except.ok ()) rfl rfl

/-- C4 counterexample: the literal path returns "v3.43.1" with its leading
"v" intact, and a whitespace-only version file resolves to the empty string —
both violate the claimed invariant (non-empty, no leading "v"). -/
theorem C4_counterexample :
    getTaskOptions "" "v3.43.1" "" "" (fun _ => Except.error "missing") =
      Except.ok ⟨"v3.43.1", false, ""⟩ ∧
    resolveVersion "v3.43.1" (Except.error "offline") = Except.ok "v3.43.1" ∧
    "v3.43.1".toList.take 1 = ['v'] ∧
    getTaskOptions ".task-version" "" "" "" (fun _ => Except.ok " ") =
      Except.ok ⟨"", false, ""⟩ :=
  ⟨rfl, rfl, rfl, rfl⟩

/-- C4 (amended): only the remote tag_name path normalizes — a single leading
"v" is stripped from the fetched tag; the literal path returns the input
verbatim (hence non-empty but possibly "v"-prefixed), and the file path
returns the trimmed file content verbatim (hence possibly empty and possibly
"v"-prefixed). -/
theorem C4_resolved_version_normalization :
    (∀ rest : List Char, cleanVersionFromTag (String.mk ('v' :: rest)) = String.mk rest) ∧
    (∀ tag : String, tag ≠ "" → fetchLatestRelease (Except.ok (some tag)) =
        Except.ok (cleanVersionFromTag tag)) ∧
    (∀ v fetch, v ≠ "latest" → resolveVersion v fetch = Except.ok v) ∧
    (∀ vIn skipC tok reader, vIn ≠ "" →
        getTaskOptions "" vIn skipC tok reader =
          Except.ok ⟨vIn, decide (skipC = "true"), tok⟩) ∧
    (∀ vff skipC tok reader c, vff ≠ "" → reader vff = Except.ok c → c ≠ "" →
        getTaskOptions vff "" skipC tok reader =
          Except.ok ⟨jsTrim c, decide (skipC = "true"), tok⟩) := by
  refine ⟨?_, ?_, ?_, ?_, ?_⟩
  · intro rest
    simp [cleanVersionFromTag]
  · intro tag htag
    simp [fetchLatestRelease, htag]
  · intro v fetch hv
    simp [resolveVersion, hv]
  · intro vIn skipC tok reader hvIn
    simp [getTaskOptions, hvIn]
  · intro vff skipC tok reader c hff hread hc
    simp [getTaskOptions, hff, hread, hc]

/-- Witness for C4's amended statement on concrete tags, inputs and files. -/
theorem C4_resolved_version_normalization_witness :
    cleanVersionFromTag (String.mk ('v' :: "3.43.1".toList)) = String.mk "3.43.1".toList ∧
    fetchLatestRelease (Except.ok (some "v3.43.1")) =
      Except.ok (cleanVersionFromTag "v3.43.1") ∧
    resolveVersion "3.43.1" (Except.error "offline") = Except.ok "3.43.1" ∧
    getTaskOptions "" "3.43.1" "" "" (fun _ => Except.error "missing") =
      Except.ok ⟨"3.43.1", decide (("" : String) = "true"), ""⟩ ∧
    getTaskOptions ".task-version" "" "" "" (fun _ => Except.ok "3.42.0\n") =
      Except.ok ⟨jsTrim "3.42.0\n", decide (("" : String) = "true"), ""⟩ :=
  ⟨C4_resolved_version_normalization.1 "3.43.1".toList,
   C4_resolved_version_normalization.2.1 "v3.43.1" (by decide),
   C4_resolved_version_normalization.2.2.1 "3.43.1" (Except.error "offline") (by decide),
   C4_resolved_version_normalization.2.2.2.1 "3.43.1" "" "" (fun _ => Except.error "missing")
     (by decide),
   C4_resolved_version_normalization.2.2.2.2 ".task-version" "" ""
     (fun _ => Except.ok "3.42.0\n") "3.42.0\n" (by decide) rfl (by decide)⟩

/-- C5: for every supported (os, arch) pair the computed download URL is
exactly base/v{version}/task_{mappedOS}_{mappedArch}.{ext} with ext = zip iff
the mapped OS is windows; with a resolved version in hand, an unsupported OS
or architecture makes the installer fail fatally with the corresponding
message while the download collaborator is never consulted (the outcome is
identical for any two download functions). -/
theorem C5_download_url_platform_gate :
    (∀ platform arch version mappedOS mappedArch,
      OS_MAPPING platform = some mappedOS →
      ARCH_MAPPING arch = some mappedArch →
      getDownloadUrl platform arch version =
        Except.ok (RELEASES_URL ++ "/v" ++ version ++ "/task_" ++ mappedOS ++ "_" ++
          mappedArch ++ "." ++ (if mappedOS = "windows" then "zip" else "tar.gz"))) ∧
    (∀ platform arch version, OS_MAPPING platform = none →
      ∀ fs requested fetch d d2 ez et ch,
        resolveVersion requested fetch = Except.ok version →
        installTask platform arch fs requested fetch d ez et ch =
          Except.error
            ("Installation process terminated. Error: Unsupported platform: " ++ platform) ∧
        installTask platform arch fs requested fetch d ez et ch =
          installTask platform arch fs requested fetch d2 ez et ch) ∧
    (∀ platform arch version mappedOS,
      OS_MAPPING platform = some mappedOS → ARCH_MAPPING arch = none →
      ∀ fs requested fetch d d2 ez et ch,
        resolveVersion requested fetch = Except.ok version →
        installTask platform arch fs requested fetch d ez et ch =
          Except.error
            ("Installation process terminated. Error: Unsupported architecture: " ++ arch) ∧
        installTask platform arch fs requested fetch d ez et ch =
          installTask platform arch fs requested fetch d2 ez et ch) := by
  refine ⟨?_, ?_, ?_⟩
  · intro platform arch version mappedOS mappedArch hos harch
    have hiff := OS_MAPPING_windows_iff platform mappedOS hos
    by_cases hw : platform = "win32"
    · have hm : mappedOS = "windows" := hiff.mp hw
      subst hw
      simp [getDownloadUrl, getPlatform, getArchitecture, OS_MAPPING, hos, harch, hm]
    · have hm : mappedOS ≠ "windows" := fun h => hw (hiff.mpr h)
      simp [getDownloadUrl, getPlatform, getArchitecture, hos, harch, hw, hm]
  · intro platform arch version hos fs requested fetch d d2 ez et ch hres
    have hurl : getDownloadUrl platform arch version =
        Except.error ("Unsupported platform: " ++ platform) := by
      simp [getDownloadUrl, getPlatform, hos]
    have h2 : installTask platform arch fs requested fetch d ez et ch =
        Except.error ("Installation process terminated. Error: " ++
          ("Unsupported platform: " ++ platform)) := by
      simp [installTask, installTaskBody, hres, hurl]
    have h3 : installTask platform arch fs requested fetch d2 ez et ch =
        Except.error ("Installation process terminated. Error: " ++
          ("Unsupported platform: " ++ platform)) := by
      simp [installTask, installTaskBody, hres, hurl]
    refine ⟨?_, by rw [h2, h3]⟩
    rw [h2]
    rfl
  · intro platform arch version mappedOS hos harch fs requested fetch d d2 ez et ch hres
    have hurl : getDownloadUrl platform arch version =
        Except.error ("Unsupported architecture: " ++ arch) := by
      simp [getDownloadUrl, getPlatform, getArchitecture, hos, harch]
    have h2 : installTask platform arch fs requested fetch d ez et ch =
        Except.error ("Installation process terminated. Error: " ++
          ("Unsupported architecture: " ++ arch)) := by
      simp [installTask, installTaskBody, hres, hurl]
    have h3 : installTask platform arch fs requested fetch d2 ez et ch =
        Except.error ("Installation process terminated. Error: " ++
          ("Unsupported architecture: " ++ arch)) := by
      simp [installTask, installTaskBody, hres, hurl]
    refine ⟨?_, by rw [h2, h3]⟩
    rw [h2]
    rfl

/-- Witness for C5: the (win32, arm64) pair yields the zip URL, an
unsupported platform "sunos" and an unsupported architecture "ia32" fail
fatally with the download collaborator unused. -/
theorem C5_download_url_platform_gate_witness :
    getDownloadUrl "win32" "arm64" "3.43.1" =
      Except.ok (RELEASES_URL ++ "/v" ++ "3.43.1" ++ "/task_" ++ "windows" ++ "_" ++
        "arm64" ++ "." ++ (if ("windows" : String) = "windows" then "zip" else "tar.gz")) ∧
    installTask "sunos" "x64" ⟨fun _ => false, fun _ => Except.ok [], fun _ => Except.ok false⟩
        "3.43.1" (Except.error "offline") (fun _ => Except.ok "/dl") (fun _ => Except.ok "/ex")
        (fun _ => Except.ok "/ex") (Except.ok ()) =
      Except.error ("Installation process terminated. Error: Unsupported platform: " ++ "sunos") ∧
    installTask "linux" "ia32" ⟨fun _ => false, fun _ => Except.ok [], fun _ => Except.ok false⟩
        "3.43.1" (Except.error "offline") (fun _ => Except.ok "/dl") (fun _ => Except.ok "/ex")
        (fun _ => Except.ok "/ex") (Except.ok ()) =
      Except.error
        ("Installation process terminated. Error: Unsupported architecture: " ++ "ia32") :=
  ⟨C5_download_url_platform_gate.1 "win32" "arm64" "3.43.1" "windows" "arm64" rfl rfl,
   (C5_download_url_platform_gate.2.1 "sunos" "x64" "3.43.1" rfl
      ⟨fun _ => false, fun _ => Except.ok [], fun _ => Except.ok false⟩ "3.43.1"
      (Except.error "offline") (fun _ => Except.ok "/dl") (fun _ => Except.ok "/dl2")
      (fun _ => Except.ok "/ex") (fun _ => Except.ok "/ex") (Except.ok ()) rfl).1,
   (C5_download_url_platform_gate.2.2 "linux" "ia32" "3.43.1" "linux" rfl rfl
      ⟨fun _ => false, fun _ => Except.ok [], fun _ => Except.ok false⟩ "3.43.1"
      (Except.error "offline") (fun _ => Except.ok "/dl") (fun _ => Except.ok "/dl2")
      (fun _ => Except.ok "/ex") (fun _ => Except.ok "/ex") (Except.ok ()) rfl).1⟩

/-- C6: the locate step checks the expected filename directly in the
extraction root and returns that path on a hit; otherwise it walks the
immediate child directories in order (first match wins, exactly one level
deep), returning root/child/name for the first matching child after any
number of non-matching entries; when neither level contains the file the
step fails with the executable-not-found error naming the extraction root. -/
theorem C6_find_executable_two_level (fs : FS) (platform root : String) :
    (fs.existsSync (pathJoin root ("task" ++ EXE_EXTENSION platform)) = true →
      findExecutable fs platform root =
        (pathJoin root ("task" ++ EXE_EXTENSION platform), []) ∧
      locateExecutable fs platform root =
        Except.ok (pathJoin root ("task" ++ EXE_EXTENSION platform))) ∧
    (∀ pre d post,
      fs.existsSync (pathJoin root ("task" ++ EXE_EXTENSION platform)) = false →
      fs.readdirSync root = Except.ok (pre ++ d :: post) →
      (∀ x ∈ pre, entryNoMatch fs ("task" ++ EXE_EXTENSION platform) root x) →
      fs.statIsDirectory (pathJoin root d) = Except.ok true →
      fs.existsSync (pathJoin (pathJoin root d) ("task" ++ EXE_EXTENSION platform)) = true →
      findExecutable fs platform root =
        (pathJoin (pathJoin root d) ("task" ++ EXE_EXTENSION platform), []) ∧
      locateExecutable fs platform root =
        Except.ok (pathJoin (pathJoin root d) ("task" ++ EXE_EXTENSION platform))) ∧
    (∀ entries,
      fs.existsSync (pathJoin root ("task" ++ EXE_EXTENSION platform)) = false →
      fs.readdirSync root = Except.ok entries →
      (∀ x ∈ entries, entryNoMatch fs ("task" ++ EXE_EXTENSION platform) root x) →
      findExecutable fs platform root =
        ("", ["Executable not found: " ++ ("task" ++ EXE_EXTENSION platform) ++
              " in directory: " ++ root]) ∧
      locateExecutable fs platform root =
        Except.error ("Executable not found in extracted directory: " ++ root)) := by
  refine ⟨?_, ?_, ?_⟩
  · intro hdirect
    have hfind : findExecutable fs platform root =
        (pathJoin root ("task" ++ EXE_EXTENSION platform), []) := by
      simp [findExecutable, checkDirectory, hdirect]
    refine ⟨hfind, ?_⟩
    simp [locateExecutable, hfind, pathJoin_ne_empty]
  · intro pre d post hdirect hread hpre hstat hex
    have hsearch : searchChildDirs fs ("task" ++ EXE_EXTENSION platform) root
        (pre ++ d :: post) =
        Except.ok (some (pathJoin (pathJoin root d) ("task" ++ EXE_EXTENSION platform))) := by
      rw [searchChildDirs_append_skip fs ("task" ++ EXE_EXTENSION platform) root pre _ hpre]
      simp [searchChildDirs, hstat, checkDirectory, hex]
    have hfind : findExecutable fs platform root =
        (pathJoin (pathJoin root d) ("task" ++ EXE_EXTENSION platform), []) := by
      simp [findExecutable, checkDirectory, hdirect, hread, hsearch]
    refine ⟨hfind, ?_⟩
    simp [locateExecutable, hfind, pathJoin_ne_empty]
  · intro entries hdirect hread hall
    have hsearch : searchChildDirs fs ("task" ++ EXE_EXTENSION platform) root entries =
        Except.ok none := by
      have h := searchChildDirs_append_skip fs ("task" ++ EXE_EXTENSION platform) root
        entries [] hall
      simpa using h
    have hfind : findExecutable fs platform root =
        ("", ["Executable not found: " ++ ("task" ++ EXE_EXTENSION platform) ++
              " in directory: " ++ root]) := by
      simp [findExecutable, checkDirectory, hdirect, hread, hsearch]
    refine ⟨hfind, ?_⟩
    simp [locateExecutable, hfind]

/-- Witness for C6: depth-0 hit, depth-1 hit behind one nested directory, and
the not-found failure, each on a concrete file system. -/
theorem C6_find_executable_two_level_witness :
    findExecutable ⟨fun p => p == "/x/task", fun _ => Except.ok [],
        fun _ => Except.ok false⟩ "linux" "/x" =
      (pathJoin "/x" ("task" ++ EXE_EXTENSION "linux"), []) ∧
    findExecutable ⟨fun p => p == "/y/sub/task",
        fun p => if p == "/y" then Except.ok ["sub"] else Except.error "bad",
        fun p => Except.ok (p == "/y/sub")⟩ "linux" "/y" =
      (pathJoin (pathJoin "/y" "sub") ("task" ++ EXE_EXTENSION "linux"), []) ∧
    locateExecutable ⟨fun _ => false, fun _ => Except.ok ["doc"],
        fun _ => Except.ok false⟩ "linux" "/z" =
      Except.error ("Executable not found in extracted directory: " ++ "/z") :=
  ⟨((C6_find_executable_two_level ⟨fun p => p == "/x/task", fun _ => Except.ok [],
      fun _ => Except.ok false⟩ "linux" "/x").1 rfl).1,
   ((C6_find_executable_two_level ⟨fun p => p == "/y/sub/task",
      fun p => if p == "/y" then Except.ok ["sub"] else Except.error "bad",
      fun p => Except.ok (p == "/y/sub")⟩ "linux" "/y").2.1 [] "sub" [] rfl rfl
      (by simp) rfl rfl).1,
   ((C6_find_executable_two_level ⟨fun _ => false, fun _ => Except.ok ["doc"],
      fun _ => Except.ok false⟩ "linux" "/z").2.2 ["doc"] rfl rfl
      (fun x _ => ⟨false, rfl, fun hb => Bool.noConfusion hb⟩)).2⟩

/-- C10: when the depth-1 phase of the executable search throws — from
enumerating the extraction root or from statting an entry — the error is
caught inside findExecutable, which only warns and returns the empty string;
the caller therefore fails with the generic executable-not-found error naming
the extraction root, never with the original file-system error. -/
theorem C10_search_error_swallowed (fs : FS) (platform root : String) :
    (∀ e, fs.existsSync (pathJoin root ("task" ++ EXE_EXTENSION platform)) = false →
      fs.readdirSync root = Except.error e →
      findExecutable fs platform root =
        ("", ["Error encountered while searching for executable. Error: " ++ e,
              "Executable not found: " ++ ("task" ++ EXE_EXTENSION platform) ++
                " in directory: " ++ root]) ∧
      locateExecutable fs platform root =
        Except.error ("Executable not found in extracted directory: " ++ root)) ∧
    (∀ pre d post e,
      fs.existsSync (pathJoin root ("task" ++ EXE_EXTENSION platform)) = false →
      fs.readdirSync root = Except.ok (pre ++ d :: post) →
      (∀ x ∈ pre, entryNoMatch fs ("task" ++ EXE_EXTENSION platform) root x) →
      fs.statIsDirectory (pathJoin root d) = Except.error e →
      findExecutable fs platform root =
        ("", ["Error encountered while searching for executable. Error: " ++ e,
              "Executable not found: " ++ ("task" ++ EXE_EXTENSION platform) ++
                " in directory: " ++ root]) ∧
      locateExecutable fs platform root =
        Except.error ("Executable not found in extracted directory: " ++ root)) := by
  constructor
  · intro e hdirect hread
    have hfind : findExecutable fs platform root =
        ("", ["Error encountered while searching for executable. Error: " ++ e,
              "Executable not found: " ++ ("task" ++ EXE_EXTENSION platform) ++
                " in directory: " ++ root]) := by
      simp [findExecutable, checkDirectory, hdirect, hread]
    refine ⟨hfind, ?_⟩
    simp [locateExecutable, hfind]
  · intro pre d post e hdirect hread hpre hstat
    have hsearch : searchChildDirs fs ("task" ++ EXE_EXTENSION platform) root
        (pre ++ d :: post) = Except.error e := by
      rw [searchChildDirs_append_skip fs ("task" ++ EXE_EXTENSION platform) root pre _ hpre]
      simp [searchChildDirs, hstat]
    have hfind : findExecutable fs platform root =
        ("", ["Error encountered while searching for executable. Error: " ++ e,
              "Executable not found: " ++ ("task" ++ EXE_EXTENSION platform) ++
                " in directory: " ++ root]) := by
      simp [findExecutable, checkDirectory, hdirect, hread, hsearch]
    refine ⟨hfind, ?_⟩
    simp [locateExecutable, hfind]

/-- Witness for C10: a throwing readdir and a throwing stat each surface as
the warning pair, an empty result, and the generic not-found failure. -/
theorem C10_search_error_swallowed_witness :
    findExecutable ⟨fun _ => false, fun _ => Except.error "EACCES: permission denied",
        fun _ => Except.ok false⟩ "linux" "/x" =
      ("", ["Error encountered while searching for executable. Error: " ++
              "EACCES: permission denied",
            "Executable not found: " ++ ("task" ++ EXE_EXTENSION "linux") ++
              " in directory: " ++ "/x"]) ∧
    locateExecutable ⟨fun _ => false, fun _ => Except.error "EACCES: permission denied",
        fun _ => Except.ok false⟩ "linux" "/x" =
      Except.error ("Executable not found in extracted directory: " ++ "/x") ∧
    locateExecutable ⟨fun _ => false, fun _ => Except.ok ["sub"],
        fun _ => Except.error "ENOENT: no such file"⟩ "linux" "/y" =
      Except.error ("Executable not found in extracted directory: " ++ "/y") :=
  ⟨((C10_search_error_swallowed ⟨fun _ => false,
      fun _ => Except.error "EACCES: permission denied", fun _ => Except.ok false⟩
      "linux" "/x").1 "EACCES: permission denied" rfl rfl).1,
   ((C10_search_error_swallowed ⟨fun _ => false,
      fun _ => Except.error "EACCES: permission denied", fun _ => Except.ok false⟩
      "linux" "/x").1 "EACCES: permission denied" rfl rfl).2,
   ((C10_search_error_swallowed ⟨fun _ => false, fun _ => Except.ok ["sub"],
      fun _ => Except.error "ENOENT: no such file"⟩ "linux" "/y").2 [] "sub" []
      "ENOENT: no such file" rfl rfl (by simp) rfl).2⟩

/-- C7: cache-layer failures never abort the run — a throwing restore backend
makes restore return a miss with only a warning; a hit whose materialized
directory lacks the executable is downgraded to a miss with a warning; a
failing copy or a throwing save backend make save return normally with only
the two warnings. -/
theorem C7_cache_failures_swallowed :
    (∀ platform arch tmpdir version (fileExists : String → Bool) chmod e
        (f : String → Except String (Option String)),
      f (getCacheKey platform arch version) = Except.error e →
      restoreCache platform arch tmpdir version f fileExists chmod =
        ⟨"", ["Failed to restore from cache: " ++ e]⟩) ∧
    (∀ platform arch tmpdir version chmod k
        (f : String → Except String (Option String)) (fileExists : String → Bool),
      f (getCacheKey platform arch version) = Except.ok (some k) → k ≠ "" →
      fileExists (pathJoin (getCacheDirectory tmpdir) (getTaskExecutableName platform)) =
        false →
      restoreCache platform arch tmpdir version f fileExists chmod =
        ⟨"", ["Cache was hit but Task was not found at " ++
          pathJoin (getCacheDirectory tmpdir) (getTaskExecutableName platform)]⟩) ∧
    (∀ platform arch tmpdir taskPath version e (sv : String → Except String Unit),
      taskPath ≠ pathJoin (getCacheDirectory tmpdir) (getTaskExecutableName platform) →
      saveCache platform arch tmpdir taskPath version (Except.ok ()) (Except.error e) sv =
        ["Failed to save Task to cache: " ++ e, "Failed to save cache: " ++ e]) ∧
    (∀ platform arch tmpdir taskPath version e (sv : String → Except String Unit),
      sv (getCacheKey platform arch version) = Except.error e →
      saveCache platform arch tmpdir taskPath version (Except.ok ()) (Except.ok ()) sv =
        ["Failed to save Task to cache: " ++ e, "Failed to save cache: " ++ e]) := by
  refine ⟨?_, ?_, ?_, ?_⟩
  · intro platform arch tmpdir version fileExists chmod e f hf
    simp [restoreCache, restoreCacheBody, hf]
  · intro platform arch tmpdir version chmod k f fileExists hf hk hfe
    simp [restoreCache, restoreCacheBody, hf, hk, hfe]
  · intro platform arch tmpdir taskPath version e sv hne
    simp [saveCache, saveCacheBody, hne]
  · intro platform arch tmpdir taskPath version e sv hsv
    by_cases hne : taskPath = pathJoin (getCacheDirectory tmpdir) (getTaskExecutableName platform)
    · simp [saveCache, saveCacheBody, hne, hsv]
    · simp [saveCache, saveCacheBody, hne, hsv]

/-- Witness for C7 on concrete failing backends and file systems. -/
theorem C7_cache_failures_swallowed_witness :
    restoreCache "linux" "x64" "/tmp" "3.43.1" (fun _ => Except.error "socket timeout")
        (fun _ => true) (Except.ok ()) =
      ⟨"", ["Failed to restore from cache: " ++ "socket timeout"]⟩ ∧
    restoreCache "linux" "x64" "/tmp" "3.43.1"
        (fun _ => Except.ok (some "task-runner-3.43.1-linux-x64")) (fun _ => false)
        (Except.ok ()) =
      ⟨"", ["Cache was hit but Task was not found at " ++
        pathJoin (getCacheDirectory "/tmp") (getTaskExecutableName "linux")]⟩ ∧
    saveCache "linux" "x64" "/tmp" "/inst/task" "3.43.1" (Except.ok ())
        (Except.error "disk full") (fun _ => Except.ok ()) =
      ["Failed to save Task to cache: " ++ "disk full",
       "Failed to save cache: " ++ "disk full"] ∧
    saveCache "linux" "x64" "/tmp" "/inst/task" "3.43.1" (Except.ok ()) (Except.ok ())
        (fun _ => Except.error "upload failed") =
      ["Failed to save Task to cache: " ++ "upload failed",
       "Failed to save cache: " ++ "upload failed"] :=
  ⟨C7_cache_failures_swallowed.1 "linux" "x64" "/tmp" "3.43.1" (fun _ => true)
      (Except.ok ()) "socket timeout" (fun _ => Except.error "socket timeout") rfl,
   C7_cache_failures_swallowed.2.1 "linux" "x64" "/tmp" "3.43.1" (Except.ok ())
      "task-runner-3.43.1-linux-x64"
      (fun _ => Except.ok (some "task-runner-3.43.1-linux-x64")) (fun _ => false) rfl
      (by decide) rfl,
   C7_cache_failures_swallowed.2.2.1 "linux" "x64" "/tmp" "/inst/task" "3.43.1"
      "disk full" (fun _ => Except.ok ()) (by decide),
   C7_cache_failures_swallowed.2.2.2 "linux" "x64" "/tmp" "/inst/task" "3.43.1"
      "upload failed" (fun _ => Except.error "upload failed") rfl⟩

/-- C8: when version-from-file is set together with a version input other
than the default sentinel "latest", the run fails with the conflict message
during option construction, before the cache-restore, install, or cache-save
step runs; version-from-file combined with version = "latest" constructs
options successfully (given a readable file). -/
theorem C8_conflicting_inputs :
    (∀ env : RunEnv, env.versionFromFile ≠ "" → env.versionInput ≠ "" →
      env.versionInput ≠ "latest" →
      run env =
        ⟨some ("Task setup failed: Both version and version-from-file inputs cannot be used together. Please specify only one."),
         [Step.getOptions]⟩ ∧
      Step.cacheRestore ∉ (run env).steps ∧
      Step.installer ∉ (run env).steps ∧
      Step.cacheSave ∉ (run env).steps) ∧
    (∀ vff vIn skipC tok (reader : String → Except String String) c,
      vff ≠ "" → vIn = "latest" → reader vff = Except.ok c →
      ∃ o, getTaskOptions vff vIn skipC tok reader = Except.ok o) := by
  constructor
  · intro env h1 h2 h3
    have hopts : getTaskOptions env.versionFromFile env.versionInput env.skipCacheInput
        env.githubTokenInput env.readFileSync =
        Except.error "Both version and version-from-file inputs cannot be used together. Please specify only one." := by
      simp [getTaskOptions, h1, h2, h3]
    have hrun : run env =
        ⟨some ("Task setup failed: " ++
          "Both version and version-from-file inputs cannot be used together. Please specify only one."),
         [Step.getOptions]⟩ := by
      simp [run, hopts]
    refine ⟨by rw [hrun]; rfl, ?_, ?_, ?_⟩ <;> simp [hrun]
  · intro vff vIn skipC tok reader c h1 h2 h3
    subst h2
    by_cases hc : c = ""
    · exact ⟨⟨"latest", decide (skipC = "true"), tok⟩,
        by simp [getTaskOptions, h1, h3, hc]⟩
    · exact ⟨⟨jsTrim c, decide (skipC = "true"), tok⟩,
        by simp [getTaskOptions, h1, h3, hc]⟩

/-- Witness for C8 on a fully concrete run environment and inputs. -/
theorem C8_conflicting_inputs_witness :
    run ⟨".task-version", "3.43.1", "", "", "", fun _ => Except.ok "3.42.0", "linux", "x64",
        "/tmp", false, "", fun _ => Except.ok none, fun _ => false, Except.ok (),
        Except.error "offline", fun _ => Except.ok "/dl", fun _ => Except.ok "/ex",
        fun _ => Except.ok "/ex", Except.ok (), Except.ok (), Except.ok (),
        fun _ => Except.ok (), Except.ok "/t", Except.ok "v",
        ⟨fun _ => false, fun _ => Except.ok [], fun _ => Except.ok false⟩⟩ =
      ⟨some ("Task setup failed: Both version and version-from-file inputs cannot be used together. Please specify only one."),
       [Step.getOptions]⟩ ∧
    (∃ o, getTaskOptions ".task-version" "latest" "" "" (fun _ => Except.ok "3.42.0") =
      Except.ok o) :=
  ⟨((C8_conflicting_inputs.1
      ⟨".task-version", "3.43.1", "", "", "", fun _ => Except.ok "3.42.0", "linux", "x64",
        "/tmp", false, "", fun _ => Except.ok none, fun _ => false, Except.ok (),
        Except.error "offline", fun _ => Except.ok "/dl", fun _ => Except.ok "/ex",
        fun _ => Except.ok "/ex", Except.ok (), Except.ok (), Except.ok (),
        fun _ => Except.ok (), Except.ok "/t", Except.ok "v",
        ⟨fun _ => false, fun _ => Except.ok [], fun _ => Except.ok false⟩⟩
      (by decide) (by decide) (by decide)).1),
   C8_conflicting_inputs.2 ".task-version" "latest" "" "" (fun _ => Except.ok "3.42.0")
     "3.42.0" (by decide) rfl rfl⟩

/-- C9: after the tool is re-resolved on the search path and executed with
the version-query flag, verification fails with a message mentioning
"No version returned" exactly when the captured standard output is empty
after trimming, and succeeds on any non-empty output. -/
theorem C9_verification_empty_output (taskPathOut output : String) :
    ((∃ m, verifyInstallation (Except.ok taskPathOut) (Except.ok output) = Except.error m ∧
        containsSubstr m "No version returned" = true) ↔ jsTrim output = "") ∧
    (jsTrim output ≠ "" →
      verifyInstallation (Except.ok taskPathOut) (Except.ok output) = Except.ok ()) := by
  by_cases h : jsTrim output = ""
  · have hlen : (jsTrim output).length = 0 := by
      rw [h]
      rfl
    have hv : verifyInstallation (Except.ok taskPathOut) (Except.ok output) =
        Except.error ("Task verification failed: " ++
          "Task verification failed: No version returned from Task") := by
      simp [verifyInstallation, hlen]
    refine ⟨⟨fun _ => h, fun _ => ⟨_, hv, by decide⟩⟩, fun hne => absurd h hne⟩
  · have hlen : ¬(jsTrim output).length = 0 := by
      intro h0
      exact h ((string_length_zero_iff _).mp h0)
    have hv : verifyInstallation (Except.ok taskPathOut) (Except.ok output) =
        Except.ok () := by
      simp [verifyInstallation, hlen]
    refine ⟨⟨?_, fun h0 => absurd h0 h⟩, fun _ => hv⟩
    rintro ⟨m, hm, _⟩
    rw [hv] at hm
    exact Except.noConfusion hm

/-- Witness for C9: whitespace-only output fails mentioning
"No version returned"; a real version line verifies. -/
theorem C9_verification_empty_output_witness :
    (∃ m, verifyInstallation (Except.ok "/usr/local/bin/task\n") (Except.ok " \n") =
        Except.error m ∧ containsSubstr m "No version returned" = true) ∧
    verifyInstallation (Except.ok "/usr/local/bin/task\n")
        (Except.ok "Task version: v3.43.1") = Except.ok () :=
  ⟨(C9_verification_empty_output "/usr/local/bin/task\n" " \n").1.mpr (by decide),
   (C9_verification_empty_output "/usr/local/bin/task\n" "Task version: v3.43.1").2
     (by decide)⟩
